import Mathlib

/-!
Verification of the core of the weex-api/openapi-contract-go-sdk client
library against its natural-language specification.

The Go source is shallowly embedded: pure functions become Lean functions,
stateful methods become explicit state passing, machine integers become
Int or Nat, the wall clock and the network are explicit parameters, and
fallible operations return Option values.  Every definition is translated
from the Go source files (weex/rate_limiter.go, weex/retry (the Retrier),
weex/errors.go, weex/types/errors.go, weex/rest/client.go,
weex/auth (the Authenticator), weex/websocket/client.go,
weex/websocket/types.go); file and line references are given next to each
definition.
-/

set_option autoImplicit false

/-! ### TokenBucket (weex/rate_limiter.go)

Go struct fields capacity, tokens, refillRate are int; refillInterval and
lastRefill are time values.  Time is modelled as an Int (an opaque unit,
matching time.Duration and time.Time differences); time.Now() becomes an
explicit now argument threaded through each operation.  The mutex is
dropped: each operation is a whole critical section, so the sequential
model is exact for any interleaving of complete operations.
-/

structure TokenBucket where
  capacity : Int
  tokens : Int
  refillRate : Int
  refillInterval : Int
  lastRefill : Int
  deriving DecidableEq, Repr

/-- NewTokenBucket (rate_limiter.go:27-35): starts full, lastRefill = now. -/
def TokenBucket.new (capacity refillInterval now : Int) : TokenBucket :=
  { capacity := capacity
    tokens := capacity
    refillRate := capacity
    refillInterval := refillInterval
    lastRefill := now }

/-- TokenBucket.refill (rate_limiter.go:79-88): full refill iff
now - lastRefill is at least refillInterval, otherwise no change. -/
def TokenBucket.refill (tb : TokenBucket) (now : Int) : TokenBucket :=
  if tb.refillInterval ≤ now - tb.lastRefill then
    { tb with tokens := tb.capacity, lastRefill := now }
  else
    tb

/-- TokenBucket.Take (rate_limiter.go:39-51): refill, then consume n
tokens iff n ≤ tokens.  Returns the Go bool result and the new state. -/
def TokenBucket.Take (tb : TokenBucket) (now n : Int) : Bool × TokenBucket :=
  let tb := tb.refill now
  if n ≤ tb.tokens then
    (true, { tb with tokens := tb.tokens - n })
  else
    (false, tb)

/-- Outcome of TokenBucket.Wait in the fuel model: ok means Take
succeeded, cancelled means the context fired, pending means the fuel ran
out with the loop still polling (in Go the loop would keep running). -/
inductive WaitResult where
  | ok
  | cancelled
  | pending
  deriving DecidableEq, Repr

/-- Polling loop of TokenBucket.Wait (rate_limiter.go:65-74): every
ticker wake checks cancellation, then retries Take.  The function times
gives the clock at each wake and canc the cancellation state; fuel bounds
the number of wakes modelled. -/
def TokenBucket.waitLoop (n : Int) (times : Nat → Int) (canc : Nat → Bool) :
    TokenBucket → Nat → Nat → WaitResult × TokenBucket
  | tb, _, 0 => (.pending, tb)
  | tb, step, fuel + 1 =>
    if canc step then
      (.cancelled, tb)
    else
      match tb.Take (times step) n with
      | (true, tb1) => (.ok, tb1)
      | (false, tb1) => TokenBucket.waitLoop n times canc tb1 (step + 1) fuel

/-- TokenBucket.Wait (rate_limiter.go:55-75): fast-path Take at the
current time (times 0), then the 100ms polling loop. -/
def TokenBucket.Wait (tb : TokenBucket) (n : Int) (times : Nat → Int)
    (canc : Nat → Bool) (fuel : Nat) : WaitResult × TokenBucket :=
  match tb.Take (times 0) n with
  | (true, tb1) => (.ok, tb1)
  | (false, tb1) => TokenBucket.waitLoop n times canc tb1 1 fuel

/-- TokenBucket.Available (rate_limiter.go:91-97): refill then read. -/
def TokenBucket.Available (tb : TokenBucket) (now : Int) : Int × TokenBucket :=
  let tb := tb.refill now
  (tb.tokens, tb)

/-- Bucket invariant from the spec: 0 ≤ tokens ≤ capacity. -/
def TokenBucket.inv (tb : TokenBucket) : Prop :=
  0 ≤ tb.tokens ∧ tb.tokens ≤ tb.capacity

instance (tb : TokenBucket) : Decidable tb.inv := by
  unfold TokenBucket.inv; infer_instance

theorem TokenBucket.refill_inv (tb : TokenBucket) (now : Int) (h : tb.inv) :
    (tb.refill now).inv := by
  obtain ⟨cap, tok, rate, intv, last⟩ := tb
  obtain ⟨h0, h1⟩ := h
  simp only [TokenBucket.inv, TokenBucket.refill] at *
  split_ifs <;> (simp_all; try omega)

theorem TokenBucket.take_inv (tb : TokenBucket) (now n : Int)
    (h : tb.inv) (hn : 0 ≤ n) : (tb.Take now n).2.inv := by
  have hr := tb.refill_inv now h
  unfold TokenBucket.Take
  obtain ⟨h0, h1⟩ := hr
  dsimp only
  split_ifs <;> exact ⟨by simp; omega, by simp; omega⟩

theorem TokenBucket.waitLoop_inv (n : Int) (times : Nat → Int)
    (canc : Nat → Bool) (hn : 0 ≤ n) :
    ∀ (fuel : Nat) (tb : TokenBucket) (step : Nat), tb.inv →
      (TokenBucket.waitLoop n times canc tb step fuel).2.inv := by
  intro fuel
  induction fuel with
  | zero => intro tb step h; exact h
  | succ k ih =>
    intro tb step h
    unfold TokenBucket.waitLoop
    split
    · exact h
    · have htake := tb.take_inv (times step) n h hn
      cases hT : tb.Take (times step) n with
      | mk ok tb1 =>
        rw [hT] at htake
        cases ok
        · simpa using ih tb1 (step + 1) htake
        · simpa using htake

theorem TokenBucket.wait_inv (tb : TokenBucket) (n : Int) (times : Nat → Int)
    (canc : Nat → Bool) (fuel : Nat) (h : tb.inv) (hn : 0 ≤ n) :
    (tb.Wait n times canc fuel).2.inv := by
  unfold TokenBucket.Wait
  have ht := tb.take_inv (times 0) n h hn
  cases hT : tb.Take (times 0) n with
  | mk ok tb1 =>
    rw [hT] at ht
    cases ok
    · simpa using TokenBucket.waitLoop_inv n times canc hn fuel tb1 1 ht
    · simpa using ht

theorem TokenBucket.refill_capacity (tb : TokenBucket) (now : Int) :
    (tb.refill now).capacity = tb.capacity := by
  unfold TokenBucket.refill
  split <;> rfl

theorem TokenBucket.take_over_capacity (tb : TokenBucket) (now n : Int)
    (hinv : tb.inv) (hn : tb.capacity < n) :
    tb.Take now n = (false, tb.refill now) := by
  obtain ⟨h0, h1⟩ := tb.refill_inv now hinv
  have hc := tb.refill_capacity now
  unfold TokenBucket.Take
  dsimp only
  rw [if_neg (by omega)]

theorem TokenBucket.waitLoop_never_ok (n : Int) (times : Nat → Int)
    (canc : Nat → Bool) :
    ∀ (fuel : Nat) (tb : TokenBucket) (step : Nat), tb.inv → tb.capacity < n →
      (TokenBucket.waitLoop n times canc tb step fuel).1 ≠ WaitResult.ok := by
  intro fuel
  induction fuel with
  | zero =>
    intro tb step _ _
    simp [TokenBucket.waitLoop]
  | succ k ih =>
    intro tb step h hn
    unfold TokenBucket.waitLoop
    split
    · simp
    · rw [TokenBucket.take_over_capacity tb (times step) n h hn]
      exact ih (tb.refill (times step)) (step + 1) (tb.refill_inv _ h)
        (by rw [tb.refill_capacity (times step)]; exact hn)

theorem TokenBucket.waitLoop_pending (n : Int) (times : Nat → Int)
    (canc : Nat → Bool) (hcanc : ∀ i, canc i = false) :
    ∀ (fuel : Nat) (tb : TokenBucket) (step : Nat), tb.inv → tb.capacity < n →
      (TokenBucket.waitLoop n times canc tb step fuel).1 = WaitResult.pending := by
  intro fuel
  induction fuel with
  | zero =>
    intro tb step _ _
    simp [TokenBucket.waitLoop]
  | succ k ih =>
    intro tb step h hn
    unfold TokenBucket.waitLoop
    rw [hcanc step]
    simp only [Bool.false_eq_true, if_false]
    rw [TokenBucket.take_over_capacity tb (times step) n h hn]
    exact ih (tb.refill (times step)) (step + 1) (tb.refill_inv _ h)
      (by rw [tb.refill_capacity (times step)]; exact hn)

/-- C4: every public TokenBucket operation (Take, Wait, Available) with a
weight n ≥ 0 preserves the invariant 0 ≤ tokens ≤ capacity, and the
refill step inside each operation is all-or-nothing: when
now - last_refill ≥ refill_interval it sets tokens to capacity and
last_refill to now, and otherwise it changes nothing. -/
theorem C4_tokenBucket_invariant_and_period_refill
    (tb : TokenBucket) (now n : Int) (times : Nat → Int) (canc : Nat → Bool)
    (fuel : Nat) (hinv : tb.inv) (hn : 0 ≤ n) :
    (tb.Take now n).2.inv ∧
    (tb.Available now).2.inv ∧
    (tb.Wait n times canc fuel).2.inv ∧
    (tb.refillInterval ≤ now - tb.lastRefill →
      tb.refill now = { tb with tokens := tb.capacity, lastRefill := now }) ∧
    (now - tb.lastRefill < tb.refillInterval → tb.refill now = tb) := by
  refine ⟨tb.take_inv now n hinv hn, ?_, tb.wait_inv n times canc fuel hinv hn,
    ?_, ?_⟩
  · exact tb.refill_inv now hinv
  · intro h
    unfold TokenBucket.refill
    rw [if_pos h]
  · intro h
    unfold TokenBucket.refill
    rw [if_neg (by omega)]

/-- Witness for C4 at a concrete bucket and weight. -/
theorem C4_witness :
    TokenBucket.inv ⟨10, 10, 10, 5, 0⟩ ∧ (0 : Int) ≤ 2 ∧
      (TokenBucket.Take ⟨10, 10, 10, 5, 0⟩ 3 2).2.inv :=
  ⟨by decide, by decide,
    (C4_tokenBucket_invariant_and_period_refill ⟨10, 10, 10, 5, 0⟩ 3 2
      (fun i => (i : Int)) (fun _ => false) 2 (by decide) (by decide)).1⟩

/-- C7 counterexample: for a full bucket of capacity 10 and a request of
weight 11, Wait performs no rejection at the API boundary: after the
fast path and five polls it is still polling (pending), having returned
no error.  The claim says such a request is rejected at the boundary
instead of blocking until external cancellation. -/
theorem C7_counterexample_no_boundary_rejection :
    (TokenBucket.Wait ⟨10, 10, 10, 5, 0⟩ 11 (fun i => (i : Int))
      (fun _ => false) 5).1 = WaitResult.pending := by
  decide

/-- C7 as amended: a blocking acquire with weight n > capacity can never
succeed (every Take returns false, and Wait never returns ok), and
absent cancellation the Wait loop polls until its fuel runs out: the
request is not rejected at the API boundary, it blocks until external
cancellation. -/
theorem C7_amended_over_capacity_never_succeeds
    (tb : TokenBucket) (n : Int) (times : Nat → Int) (canc : Nat → Bool)
    (fuel : Nat) (hinv : tb.inv) (hn : tb.capacity < n) :
    (∀ now, (tb.Take now n).1 = false) ∧
    (tb.Wait n times canc fuel).1 ≠ WaitResult.ok ∧
    ((∀ i, canc i = false) →
      (tb.Wait n times canc fuel).1 = WaitResult.pending) := by
  refine ⟨?_, ?_, ?_⟩
  · intro now
    rw [tb.take_over_capacity now n hinv hn]
  · unfold TokenBucket.Wait
    rw [tb.take_over_capacity (times 0) n hinv hn]
    exact TokenBucket.waitLoop_never_ok n times canc fuel
      (tb.refill (times 0)) 1 (tb.refill_inv _ hinv)
      (by rw [tb.refill_capacity (times 0)]; exact hn)
  · intro hcanc
    unfold TokenBucket.Wait
    rw [tb.take_over_capacity (times 0) n hinv hn]
    exact TokenBucket.waitLoop_pending n times canc hcanc fuel
      (tb.refill (times 0)) 1 (tb.refill_inv _ hinv)
      (by rw [tb.refill_capacity (times 0)]; exact hn)

/-- Witness for the amended C7 at a concrete over-capacity request. -/
theorem C7_amended_witness :
    TokenBucket.inv ⟨10, 10, 10, 5, 0⟩ ∧ (10 : Int) < 11 ∧
      (TokenBucket.Wait ⟨10, 10, 10, 5, 0⟩ 11 (fun i => (i : Int))
        (fun _ => false) 3).1 ≠ WaitResult.ok :=
  ⟨by decide, by decide,
    (C7_amended_over_capacity_never_succeeds ⟨10, 10, 10, 5, 0⟩ 11
      (fun i => (i : Int)) (fun _ => false) 3 (by decide) (by decide)).2.1⟩

/-! ### Go error values (weex/errors.go, weex/types errors, fmt.Errorf)

Go errors are dynamically typed values inspected with errors.Is and
errors.As.  GoErr mirrors exactly the error values this code base can
produce or test for: the two context sentinels, the typed APIError and
NetworkError of weex/errors.go (APIError.IsRetriable reads
Category.Retriable; GetErrorCategory never returns nil, so the category
bit is carried directly), plain fmt.Errorf / errors.New values, a
fmt.Errorf value wrapping another error through a %w verb, and the
MaxRetriesExceeded wrap fmt.Errorf("%w: %v", ErrMaxRetriesExceeded, e)
produced by DoWithRetry, which keeps the last error only as formatted
text (%v does not wrap), recorded here as a field for bookkeeping. -/

inductive GoErr where
  | contextCanceled
  | contextDeadlineExceeded
  | apiError (code msg : String) (httpStatus : Nat) (requestTime : Int)
      (catRetriable : Bool)
  | networkError (op url : String)
  | plain (msg : String)
  | wrap (msg : String) (inner : GoErr)
  | maxRetriesExceeded (last : GoErr)
  deriving DecidableEq, Repr

/-- Test of errors.Is(err, context.Canceled) ||
errors.Is(err, context.DeadlineExceeded): walks the Unwrap chain looking
for either context sentinel.  Only the wrap constructor unwraps; the
MaxRetriesExceeded value unwraps to the ErrMaxRetriesExceeded sentinel
(a plain errors.New value), never to a context error. -/
def GoErr.isCtxErr : GoErr → Bool
  | .contextCanceled => true
  | .contextDeadlineExceeded => true
  | .wrap _ inner => inner.isCtxErr
  | _ => false

/-- Test of errors.As(err, &apiErr) for *APIError: finds the first
APIError in the Unwrap chain and returns its IsRetriable() bit. -/
def GoErr.asAPIError : GoErr → Option Bool
  | .apiError _ _ _ _ r => some r
  | .wrap _ inner => inner.asAPIError
  | _ => none

/-- Test of errors.As(err, &netErr) for *NetworkError. -/
def GoErr.asNetworkError : GoErr → Bool
  | .networkError _ _ => true
  | .wrap _ inner => inner.asNetworkError
  | _ => false

/-! ### Retrier (the retry source file, src/unnamed/part_005)

Durations are modelled as exact rationals (the Go code computes the
backoff in float64 over nanosecond counts; the formula is the same, the
model ignores float rounding).  The closure fn is modelled as a function
from the invocation index to its result (none = Go nil error), and the
context as two oracles: cancTop i tells whether ctx.Done() is already
closed when attempt i starts (part_005:48-53), cancSleep i whether it
fires during the backoff sleep after attempt i (part_005:85-91). -/

structure Retrier where
  maxRetries : Nat
  initialBackoff : Rat
  maxBackoff : Rat
  backoffFactor : Rat
  deriving DecidableEq, Repr

/-- Retrier.isRetriable (part_005:98-122): context errors are never
retriable; an APIError in the chain decides by its category; a
NetworkError in the chain is always retriable; anything else is not. -/
def Retrier.isRetriable (_ : Retrier) (e : GoErr) : Bool :=
  if e.isCtxErr then false
  else
    match e.asAPIError with
    | some r => r
    | none => if e.asNetworkError then true else false

/-- Retrier.calculateBackoff (part_005:126-135):
initialBackoff * backoffFactor ^ attempt, capped at maxBackoff. -/
def Retrier.calculateBackoff (r : Retrier) (attempt : Nat) : Rat :=
  let backoff := r.initialBackoff * r.backoffFactor ^ attempt
  if r.maxBackoff < backoff then r.maxBackoff else backoff

/-- Loop body of Retrier.DoWithRetry (part_005:43-95), one constructor
case per loop iteration.  fuel is maxRetries + 1 - attempt (the number
of remaining iterations the for condition admits); the fuel-0 case is
the normal loop exit, returning the MaxRetriesExceeded wrap of the last
error (unreachable from DoWithRetry, which breaks at
attempt = maxRetries first).  The result carries the returned error
(none = success), the number of closure invocations performed, and the
list of completed backoff sleeps in order. -/
def Retrier.doWithRetryGo (r : Retrier) (fn : Nat → Option GoErr)
    (cancTop cancSleep : Nat → Bool) :
    Nat → Nat → Option GoErr → Option GoErr × Nat × List Rat
  | 0, _, lastErr =>
    (some (.maxRetriesExceeded (lastErr.getD (.plain "<nil>"))), 0, [])
  | fuel + 1, attempt, _ =>
    if cancTop attempt then
      (some .contextCanceled, 0, [])
    else
      match fn attempt with
      | none => (none, 1, [])
      | some e =>
        if ¬ r.isRetriable e then
          (some e, 1, [])
        else if r.maxRetries ≤ attempt then
          (some (.maxRetriesExceeded e), 1, [])
        else if cancSleep attempt then
          (some .contextCanceled, 1, [])
        else
          let rest := r.doWithRetryGo fn cancTop cancSleep fuel (attempt + 1)
            (some e)
          (rest.1, rest.2.1 + 1, r.calculateBackoff attempt :: rest.2.2)

/-- Retrier.DoWithRetry (part_005:43-95): run the loop from attempt 0
with lastErr nil.  Cancellation during a sleep returns ctx.Err() exactly
as a cancellation seen at the top of the loop does. -/
def Retrier.DoWithRetry (r : Retrier) (fn : Nat → Option GoErr)
    (cancTop cancSleep : Nat → Bool) : Option GoErr × Nat × List Rat :=
  r.doWithRetryGo fn cancTop cancSleep (r.maxRetries + 1) 0 none

theorem Retrier.doWithRetryGo_allFail (r : Retrier) (fn : Nat → Option GoErr)
    (cancTop cancSleep : Nat → Bool)
    (hc : ∀ i, cancTop i = false) (hs : ∀ i, cancSleep i = false)
    (e : Nat → GoErr) (hf : ∀ i, fn i = some (e i))
    (hr : ∀ i, r.isRetriable (e i) = true) :
    ∀ (fuel : Nat), 1 ≤ fuel → ∀ (attempt : Nat) (lastErr : Option GoErr),
      attempt + fuel = r.maxRetries + 1 →
      (r.doWithRetryGo fn cancTop cancSleep fuel attempt lastErr).1
          = some (.maxRetriesExceeded (e r.maxRetries)) ∧
      (r.doWithRetryGo fn cancTop cancSleep fuel attempt lastErr).2.1 = fuel := by
  intro fuel
  induction fuel with
  | zero => omega
  | succ k ih =>
    intro _ attempt lastErr hsum
    have h1 := hc attempt
    have h2 := hf attempt
    have h3 := hr attempt
    have h4 := hs attempt
    rcases Nat.eq_zero_or_pos k with hk | hk
    · subst hk
      have hmax : attempt = r.maxRetries := by omega
      subst hmax
      simp [Retrier.doWithRetryGo, h1, h2, h3]
    · have hlt : ¬ r.maxRetries ≤ attempt := by omega
      have := ih hk (attempt + 1) (some (e attempt)) (by omega)
      simp only [Retrier.doWithRetryGo, h1, h2, h3, h4, hlt]
      simp only [Bool.false_eq_true, if_false, not_true, if_true]
      simpa using this

/-- C3: with a non-cancelled context, a first non-retriable error is
returned unchanged after exactly one closure invocation, and when every
invocation fails retriably the closure runs exactly maxRetries + 1 times
and the result is MaxRetriesExceeded wrapping the last observed error. -/
theorem C3_doWithRetry_invocation_counts (r : Retrier)
    (fn : Nat → Option GoErr) (cancTop cancSleep : Nat → Bool)
    (hc : ∀ i, cancTop i = false) (hs : ∀ i, cancSleep i = false) :
    (∀ e, fn 0 = some e → r.isRetriable e = false →
      r.DoWithRetry fn cancTop cancSleep = (some e, 1, [])) ∧
    (∀ e : Nat → GoErr, (∀ i, fn i = some (e i)) →
      (∀ i, r.isRetriable (e i) = true) →
      (r.DoWithRetry fn cancTop cancSleep).1
          = some (.maxRetriesExceeded (e r.maxRetries)) ∧
      (r.DoWithRetry fn cancTop cancSleep).2.1 = r.maxRetries + 1) := by
  constructor
  · intro e hfn hnr
    have h1 := hc 0
    simp only [Retrier.DoWithRetry, Retrier.doWithRetryGo, h1, hfn, hnr]
    simp
  · intro e hf hr
    exact r.doWithRetryGo_allFail fn cancTop cancSleep hc hs e hf hr
      (r.maxRetries + 1) (by omega) 0 none (by omega)

/-- Witness for C3 with a non-retriable auth error (code 40007). -/
theorem C3_witness :
    (∀ i : Nat, (fun _ : Nat => false) i = false) ∧
      Retrier.DoWithRetry ⟨3, 1, 30, 2⟩
        (fun _ => some (.apiError "40007" "bad sig" 400 0 false))
        (fun _ => false) (fun _ => false)
        = (some (.apiError "40007" "bad sig" 400 0 false), 1, []) :=
  ⟨fun _ => rfl,
    (C3_doWithRetry_invocation_counts ⟨3, 1, 30, 2⟩
        (fun _ => some (.apiError "40007" "bad sig" 400 0 false))
        (fun _ => false) (fun _ => false)
        (fun _ => rfl) (fun _ => rfl)).1 _ rfl rfl⟩

theorem Retrier.doWithRetryGo_sleeps (r : Retrier) (fn : Nat → Option GoErr)
    (cancTop cancSleep : Nat → Bool)
    (hc : ∀ i, cancTop i = false) (hs : ∀ i, cancSleep i = false) :
    ∀ (fuel : Nat), 1 ≤ fuel → ∀ (attempt : Nat) (lastErr : Option GoErr),
      attempt + fuel = r.maxRetries + 1 →
      (r.doWithRetryGo fn cancTop cancSleep fuel attempt lastErr).2.2
          = (List.range' attempt
              ((r.doWithRetryGo fn cancTop cancSleep fuel attempt lastErr).2.1
                - 1)).map r.calculateBackoff ∧
      1 ≤ (r.doWithRetryGo fn cancTop cancSleep fuel attempt lastErr).2.1 := by
  intro fuel
  induction fuel with
  | zero => omega
  | succ k ih =>
    intro _ attempt lastErr hsum
    have h1 := hc attempt
    have h4 := hs attempt
    simp only [Retrier.doWithRetryGo, h1]
    simp only [Bool.false_eq_true, if_false]
    cases hfn : fn attempt with
    | none => simp
    | some e =>
      by_cases hret : r.isRetriable e
      · simp only [hret, not_true, if_false]
        by_cases hmax : r.maxRetries ≤ attempt
        · simp [hmax]
        · have hk : 1 ≤ k := by omega
          have := ih hk (attempt + 1) (some e) (by omega)
          simp only [hmax, if_false, h4]
          simp only [Bool.false_eq_true, if_false]
          obtain ⟨ih1, ih2⟩ := this
          constructor
          · rw [ih1]
            rw [show (r.doWithRetryGo fn cancTop cancSleep k (attempt + 1)
              (some e)).2.1 + 1 - 1
                = ((r.doWithRetryGo fn cancTop cancSleep k (attempt + 1)
                    (some e)).2.1 - 1) + 1 by omega]
            rw [List.range'_succ]
            simp
          · omega
      · simp [hret]

/-- C5: with a non-cancelled context, the sleeps performed by
DoWithRetry are exactly calculateBackoff 0, calculateBackoff 1, ... for
the attempts that were followed by another attempt — so backoff happens
only between attempts and never before the first invocation — and
calculateBackoff n = min maxBackoff (initialBackoff * backoffFactor ^ n)
for the 0-indexed attempt n. -/
theorem C5_backoff_schedule (r : Retrier) (fn : Nat → Option GoErr)
    (cancTop cancSleep : Nat → Bool)
    (hc : ∀ i, cancTop i = false) (hs : ∀ i, cancSleep i = false) :
    (r.DoWithRetry fn cancTop cancSleep).2.2
        = (List.range ((r.DoWithRetry fn cancTop cancSleep).2.1 - 1)).map
            r.calculateBackoff ∧
    ∀ n : Nat, r.calculateBackoff n
        = min r.maxBackoff (r.initialBackoff * r.backoffFactor ^ n) := by
  constructor
  · have := r.doWithRetryGo_sleeps fn cancTop cancSleep hc hs
      (r.maxRetries + 1) (by omega) 0 none (by omega)
    rw [List.range_eq_range']
    exact this.1
  · intro n
    unfold Retrier.calculateBackoff
    dsimp only
    split_ifs with h
    · exact (min_eq_left h.le).symm
    · exact (min_eq_right (not_lt.mp h)).symm

/-- Witness for C5: two retriable rate-limit failures then success, with
initial backoff 1/10, factor 2, cap 1: sleeps are [1/10, 1/5]. -/
theorem C5_witness :
    (∀ i : Nat, (fun _ : Nat => false) i = false) ∧
      (Retrier.DoWithRetry ⟨3, 1/10, 1, 2⟩
        (fun i => if i < 2 then some (.apiError "429" "too many" 429 0 true)
                  else none)
        (fun _ => false) (fun _ => false)).2.2
        = (List.range ((Retrier.DoWithRetry ⟨3, 1/10, 1, 2⟩
            (fun i => if i < 2 then some (.apiError "429" "too many" 429 0 true)
                      else none)
            (fun _ => false) (fun _ => false)).2.1 - 1)).map
            (Retrier.calculateBackoff ⟨3, 1/10, 1, 2⟩) :=
  ⟨fun _ => rfl,
    (C5_backoff_schedule ⟨3, 1/10, 1, 2⟩
        (fun i => if i < 2 then some (.apiError "429" "too many" 429 0 true)
                  else none)
        (fun _ => false) (fun _ => false)
        (fun _ => rfl) (fun _ => rfl)).1⟩

/-! ### REST client response parsing and the request pipeline
(weex/rest/client.go)

The JSON decoder is external to the repository, so a response body is
represented by its decode outcomes: wrapperParse is the result of
json.Unmarshal into the APIResponse wrapper (none if that unmarshal
errors), dataLen the length of the raw data field, directOk / dataOk
whether unmarshalling the raw body / the data field into the caller
record succeeds.  resultWanted mirrors result != nil. -/

structure APIResponse where
  code : String
  msg : String
  requestTime : Int
  dataLen : Nat
  deriving DecidableEq, Repr

/-- Fallback tail of parseResponse (client.go:157-170): not a wrapped
response, parse the raw body directly into the result, then surface any
HTTP status ≥ 400. -/
def parseFallback (statusCode : Nat) (resultWanted directOk : Bool) :
    Option GoErr :=
  if resultWanted ∧ ¬ directOk then
    some (.plain "failed to unmarshal direct response")
  else if 400 ≤ statusCode then
    some (.plain ("HTTP error: " ++ toString statusCode))
  else
    none

/-- parseResponse (client.go:132-171).  A body that unmarshals into the
wrapper and carries any of code, msg or requestTime is a wrapped
response: it is an error only when its code is non-empty and not a
success (success codes 0 and 200, or any HTTP 2xx status); otherwise
data is unmarshalled into the result if requested and present.  All
errors are built with fmt.Errorf, hence plain values. -/
def parseResponse (statusCode : Nat) (wrapperParse : Option APIResponse)
    (resultWanted directOk dataOk : Bool) : Option GoErr :=
  match wrapperParse with
  | some a =>
    if a.code ≠ "" ∨ a.msg ≠ "" ∨ a.requestTime ≠ 0 then
      let isSuccess := a.code = "0" ∨ a.code = "200" ∨
        (200 ≤ statusCode ∧ statusCode < 300)
      if a.code ≠ "" ∧ ¬ isSuccess then
        some (.plain ("API error [" ++ a.code ++ "]: " ++ a.msg ++
          " (status: " ++ toString statusCode ++ ", time: " ++
          toString a.requestTime ++ ")"))
      else if resultWanted ∧ 0 < a.dataLen then
        if dataOk then none
        else some (.plain "failed to unmarshal response data")
      else
        none
    else
      parseFallback statusCode resultWanted directOk
  | none => parseFallback statusCode resultWanted directOk

/-- Environment of one doRequestOnce attempt: the outcome of every
external effect the attempt performs, in program order.  rlErr is the
error returned by rateLimiter.WaitForCapacity (nil normally, ctx.Err()
on cancellation), reqErr the error of http.NewRequestWithContext,
execErr the transport error of httpClient.Do (a *url.Error, never a
weex *NetworkError), readErr the error of io.ReadAll. -/
structure AttemptEnv where
  rlErr : Option GoErr
  bodyPresent : Bool
  marshalOk : Bool
  reqErr : Option GoErr
  execErr : Option GoErr
  readErr : Option GoErr
  status : Nat
  wrapperParse : Option APIResponse
  directOk : Bool
  dataOk : Bool
  deriving DecidableEq, Repr

/-- doRequestOnce (client.go:71-129): rate-limit wait, body marshal,
request build, execute, read, then parseResponse.  Every failure is
wrapped with fmt.Errorf (%w keeps the inner error in the chain). -/
def doRequestOnce (env : AttemptEnv) (resultWanted : Bool) : Option GoErr :=
  match env.rlErr with
  | some e => some (.wrap "rate limit wait failed" e)
  | none =>
    if env.bodyPresent ∧ ¬ env.marshalOk then
      some (.plain "failed to marshal request body")
    else
      match env.reqErr with
      | some e => some (.wrap "failed to create request" e)
      | none =>
        match env.execErr with
        | some e => some (.wrap "failed to execute request" e)
        | none =>
          match env.readErr with
          | some e => some (.wrap "failed to read response" e)
          | none =>
            parseResponse env.status env.wrapperParse resultWanted
              env.directOk env.dataOk

/-- DoRequest (client.go:64-68): the retrier re-drives doRequestOnce;
envs i is the environment the i-th attempt encounters. -/
def DoRequest (r : Retrier) (envs : Nat → AttemptEnv) (resultWanted : Bool)
    (cancTop cancSleep : Nat → Bool) : Option GoErr × Nat × List Rat :=
  r.DoWithRetry (fun i => doRequestOnce (envs i) resultWanted)
    cancTop cancSleep

/-- C1 counterexample: a wrapped body carrying the non-success code
40007 together with HTTP status 200 is reported as SUCCESS by
parseResponse (the 2xx disjunct of isSuccess at client.go:142 swallows
the envelope code), while the claim says it must surface as an error. -/
theorem C1_counterexample_2xx_masks_envelope_code :
    parseResponse 200 (some ⟨"40007", "bad sig", 1700000000123, 0⟩)
      true true true = none := by
  decide

/-- C1 as amended: for a wrapped response that carries an envelope code
(and whose data field, if consumed, unmarshals), parseResponse reports
success exactly when the code is 0 or 200 OR the HTTP status is 2xx —
the 2xx disjunct applies whether or not a code is carried, so an HTTP 2xx
status makes any wrapped envelope successful regardless of its code. -/
theorem C1_amended_wrapped_success_condition (statusCode : Nat)
    (a : APIResponse) (resultWanted directOk : Bool) (hcode : a.code ≠ "") :
    parseResponse statusCode (some a) resultWanted directOk true = none ↔
      (a.code = "0" ∨ a.code = "200" ∨
        (200 ≤ statusCode ∧ statusCode < 300)) := by
  have h1 : a.code ≠ "" ∨ a.msg ≠ "" ∨ a.requestTime ≠ 0 := Or.inl hcode
  simp only [parseResponse]
  rw [if_pos h1]
  by_cases hS : a.code = "0" ∨ a.code = "200" ∨
      (200 ≤ statusCode ∧ statusCode < 300)
  · rw [if_neg (by tauto)]
    split_ifs <;> simp [hS]
  · rw [if_pos ⟨hcode, hS⟩]
    simp [hS]

/-- Witness for the amended C1: code 40007 with HTTP 404 is an error. -/
theorem C1_amended_witness :
    ("40007" : String) ≠ "" ∧
      (parseResponse 404 (some ⟨"40007", "bad sig", 5, 0⟩) true true true
          = none ↔
        (("40007" : String) = "0" ∨ ("40007" : String) = "200" ∨
          (200 ≤ 404 ∧ 404 < 300))) :=
  ⟨by decide,
    C1_amended_wrapped_success_condition 404 ⟨"40007", "bad sig", 5, 0⟩
      true true (by decide)⟩

/-! ### Why the pipeline never retries (evidence for C2)

The typed errors that Retrier.isRetriable looks for — *APIError and
*NetworkError — are never constructed anywhere in the repository: the
constructors NewAPIError, WrapError and NewNetworkError of
weex/errors.go have no callers, and doRequestOnce / parseResponse build
every failure with fmt.Errorf.  typedFree captures that shape, and every
typedFree error is classified non-retriable. -/

def GoErr.typedFree : GoErr → Bool
  | .apiError _ _ _ _ _ => false
  | .networkError _ _ => false
  | .wrap _ inner => inner.typedFree
  | _ => true

theorem GoErr.typedFree_asAPIError (e : GoErr) (h : e.typedFree = true) :
    e.asAPIError = none := by
  induction e <;> simp_all [GoErr.typedFree, GoErr.asAPIError]

theorem GoErr.typedFree_asNetworkError (e : GoErr) (h : e.typedFree = true) :
    e.asNetworkError = false := by
  induction e <;> simp_all [GoErr.typedFree, GoErr.asNetworkError]

theorem Retrier.typedFree_not_retriable (r : Retrier) (e : GoErr)
    (h : e.typedFree = true) : r.isRetriable e = false := by
  unfold Retrier.isRetriable
  rw [e.typedFree_asAPIError h, e.typedFree_asNetworkError h]
  split_ifs <;> simp_all

theorem parseFallback_typedFree (statusCode : Nat)
    (resultWanted directOk : Bool) (e : GoErr)
    (h : parseFallback statusCode resultWanted directOk = some e) :
    e.typedFree = true := by
  unfold parseFallback at h
  split_ifs at h <;> (injection h with h; subst h; rfl)

theorem parseResponse_typedFree (statusCode : Nat)
    (wrapperParse : Option APIResponse) (resultWanted directOk dataOk : Bool)
    (e : GoErr)
    (h : parseResponse statusCode wrapperParse resultWanted directOk dataOk
      = some e) : e.typedFree = true := by
  unfold parseResponse at h
  rcases wrapperParse with _ | a
  · exact parseFallback_typedFree _ _ _ _ h
  · dsimp only at h
    split_ifs at h <;>
      first
      | (injection h with h; subst h; rfl)
      | exact parseFallback_typedFree _ _ _ _ h

theorem doRequestOnce_typedFree (env : AttemptEnv) (resultWanted : Bool)
    (e : GoErr)
    (hrl : ∀ x, env.rlErr = some x → x.typedFree = true)
    (hreq : ∀ x, env.reqErr = some x → x.typedFree = true)
    (hexec : ∀ x, env.execErr = some x → x.typedFree = true)
    (hread : ∀ x, env.readErr = some x → x.typedFree = true)
    (h : doRequestOnce env resultWanted = some e) : e.typedFree = true := by
  unfold doRequestOnce at h
  rcases hRL : env.rlErr with _ | x
  · rw [hRL] at h
    dsimp only at h
    split_ifs at h with hb
    · injection h with h; subst h; rfl
    · rcases hRq : env.reqErr with _ | x <;> rw [hRq] at h <;> dsimp only at h
      · rcases hEx : env.execErr with _ | x <;> rw [hEx] at h <;>
          dsimp only at h
        · rcases hRd : env.readErr with _ | x <;> rw [hRd] at h <;>
            dsimp only at h
          · exact parseResponse_typedFree _ _ _ _ _ _ h
          · injection h with h; subst h
            exact hread x hRd
        · injection h with h; subst h
          exact hexec x hEx
      · injection h with h; subst h
        exact hreq x hRq
  · rw [hRL] at h
    dsimp only at h
    injection h with h; subst h
    exact hrl x hRL

theorem Retrier.doWithRetry_first_nonretriable (r : Retrier)
    (fn : Nat → Option GoErr) (cancTop cancSleep : Nat → Bool) (e : GoErr)
    (hc : cancTop 0 = false) (hfn : fn 0 = some e)
    (hnr : r.isRetriable e = false) :
    r.DoWithRetry fn cancTop cancSleep = (some e, 1, []) := by
  simp only [Retrier.DoWithRetry, Retrier.doWithRetryGo, hc, hfn, hnr]
  simp

/-- General form of the C2 evidence: whenever the first attempt of the
pipeline fails and the effect errors of that attempt are free of the
typed *APIError / *NetworkError values (as they always are in this
repository, whose pipeline builds every error with fmt.Errorf), the
retrier classifies the failure non-retriable and DoRequest returns it
after exactly one invocation, whatever maxRetries is. -/
theorem doRequest_single_attempt (r : Retrier) (envs : Nat → AttemptEnv)
    (resultWanted : Bool) (cancTop cancSleep : Nat → Bool) (e : GoErr)
    (hc : cancTop 0 = false)
    (hfirst : doRequestOnce (envs 0) resultWanted = some e)
    (hrl : ∀ x, (envs 0).rlErr = some x → x.typedFree = true)
    (hreq : ∀ x, (envs 0).reqErr = some x → x.typedFree = true)
    (hexec : ∀ x, (envs 0).execErr = some x → x.typedFree = true)
    (hread : ∀ x, (envs 0).readErr = some x → x.typedFree = true) :
    DoRequest r envs resultWanted cancTop cancSleep = (some e, 1, []) :=
  Retrier.doWithRetry_first_nonretriable r _ cancTop cancSleep e hc hfirst
    (r.typedFree_not_retriable e
      (doRequestOnce_typedFree (envs 0) resultWanted e hrl hreq hexec hread
        hfirst))

/-- Attempt environment of the C2 scenario while the venue throttles:
HTTP 429 with body code 429 msg "too many". -/
def env429 : AttemptEnv :=
  { rlErr := none, bodyPresent := false, marshalOk := true, reqErr := none,
    execErr := none, readErr := none, status := 429,
    wrapperParse := some ⟨"429", "too many", 0, 0⟩,
    directOk := true, dataOk := true }

/-- Attempt environment once the venue recovers: HTTP 200, code 0. -/
def envOk : AttemptEnv :=
  { rlErr := none, bodyPresent := false, marshalOk := true, reqErr := none,
    execErr := none, readErr := none, status := 200,
    wrapperParse := some ⟨"0", "", 123, 4⟩,
    directOk := true, dataOk := true }

/-- The C2 scenario: the server throttles the first two attempts, then
succeeds. -/
def scenario429 (i : Nat) : AttemptEnv := if i < 2 then env429 else envOk

/-- C2 evaluated at the failing input of the claim: server answers code
429 twice then code 0, retrier configured with maxRetries 3, initial
backoff 100ms, factor 2, cap 1s.  The claim says success on attempt 3;
the code instead returns the first throttle error after exactly one
invocation and sleeps never, because parseResponse emits it as a plain
fmt.Errorf value that Retrier.isRetriable does not recognise as
retriable (no *APIError is ever constructed). -/
theorem C2_code_bug_429_not_retried :
    DoRequest ⟨3, 1/10, 1, 2⟩ scenario429 true
      (fun _ => false) (fun _ => false)
      = (some (.plain "API error [429]: too many (status: 429, time: 0)"),
          1, []) := by
  decide

/-! ### Signing (the Authenticator source file with weex/websocket/types.go
line numbers 362-514 in the concatenated listing)

The Go code signs with crypto/hmac + crypto/sha256 and encodes with
encoding/base64 (StdEncoding).  Those primitives are standard-library
functions, embedded here directly from their definitions (FIPS 180-4
SHA-256, RFC 2104 HMAC, RFC 4648 base64): bytes are Nat values < 256,
32-bit words are Nat values reduced mod 2^32.  Go strings are byte
slices; strBytes maps a Lean string to its bytes, which for the ASCII
strings involved is the character code of each character. -/

def w32 (x : Nat) : Nat := x % 4294967296

def rotr32 (n x : Nat) : Nat := w32 ((x >>> n) ||| (x <<< (32 - n)))

def ssig0 (x : Nat) : Nat := (rotr32 7 x) ^^^ (rotr32 18 x) ^^^ (x >>> 3)

def ssig1 (x : Nat) : Nat := (rotr32 17 x) ^^^ (rotr32 19 x) ^^^ (x >>> 10)

def bsig0 (x : Nat) : Nat := (rotr32 2 x) ^^^ (rotr32 13 x) ^^^ (rotr32 22 x)

def bsig1 (x : Nat) : Nat := (rotr32 6 x) ^^^ (rotr32 11 x) ^^^ (rotr32 25 x)

def sha256K : List Nat :=
  [1116352408, 1899447441, 3049323471, 3921009573, 961987163,
   1508970993, 2453635748, 2870763221, 3624381080, 310598401,
   607225278, 1426881987, 1925078388, 2162078206, 2614888103,
   3248222580, 3835390401, 4022224774, 264347078, 604807628,
   770255983, 1249150122, 1555081692, 1996064986, 2554220882,
   2821834349, 2952996808, 3210313671, 3336571891, 3584528711,
   113926993, 338241895, 666307205, 773529912, 1294757372,
   1396182291, 1695183700, 1986661051, 2177026350, 2456956037,
   2730485921, 2820302411, 3259730800, 3345764771, 3516065817,
   3600352804, 4094571909, 275423344, 430227734, 506948616,
   659060556, 883997877, 958139571, 1322822218, 1537002063,
   1747873779, 1955562222, 2024104815, 2227730452, 2361852424,
   2428436474, 2756734187, 3204031479, 3329325298]

def sha256H0 : List Nat :=
  [1779033703, 3144134277, 1013904242, 2773480762, 1359893119,
   2600822924, 528734635, 1541459225]

/-- Big-endian 4-byte groups to 32-bit words. -/
def toWords : List Nat → List Nat
  | b0 :: b1 :: b2 :: b3 :: rest =>
    ((b0 <<< 24) ||| (b1 <<< 16) ||| (b2 <<< 8) ||| b3) :: toWords rest
  | _ => []

/-- Append the next word of the SHA-256 message schedule. -/
def scheduleStep (w : List Nat) : List Nat :=
  let n := w.length
  w ++ [w32 (ssig1 (w.getD (n - 2) 0) + w.getD (n - 7) 0 +
    ssig0 (w.getD (n - 15) 0) + w.getD (n - 16) 0)]

/-- Expand the 16 chunk words to the 64-word schedule. -/
def schedule (w16 : List Nat) : List Nat :=
  (List.range 48).foldl (fun w _ => scheduleStep w) w16

/-- One SHA-256 compression round. -/
def compressStep (st : List Nat) (kw : Nat × Nat) : List Nat :=
  match st with
  | [a, b, c, d, e, f, g, h] =>
    let t1 := w32 (h + bsig1 e + ((e &&& f) ^^^ ((e ^^^ 0xffffffff) &&& g)) +
      kw.1 + kw.2)
    let t2 := w32 (bsig0 a + ((a &&& b) ^^^ (a &&& c) ^^^ (b &&& c)))
    [w32 (t1 + t2), a, b, c, w32 (d + t1), e, f, g]
  | _ => st

/-- Process one 64-byte chunk. -/
def processChunk (h : List Nat) (chunk : List Nat) : List Nat :=
  let st := (sha256K.zip (schedule (toWords chunk))).foldl compressStep h
  (h.zip st).map (fun p => w32 (p.1 + p.2))

/-- Big-endian byte expansions. -/
def u32be (n : Nat) : List Nat :=
  [(n >>> 24) % 256, (n >>> 16) % 256, (n >>> 8) % 256, n % 256]

def u64be (n : Nat) : List Nat :=
  [(n >>> 56) % 256, (n >>> 48) % 256, (n >>> 40) % 256, (n >>> 32) % 256,
   (n >>> 24) % 256, (n >>> 16) % 256, (n >>> 8) % 256, n % 256]

def splitChunks (l : List Nat) : List (List Nat) :=
  (List.range ((l.length + 63) / 64)).map (fun i => (l.drop (64 * i)).take 64)

/-- SHA-256 of a byte list (FIPS 180-4). -/
def sha256 (msg : List Nat) : List Nat :=
  let padded := msg ++ [0x80] ++
    List.replicate ((119 - msg.length % 64) % 64) 0 ++ u64be (8 * msg.length)
  ((splitChunks padded).foldl processChunk sha256H0).map u32be |>.flatten

/-- HMAC-SHA256 (RFC 2104), block size 64. -/
def hmacSHA256 (key msg : List Nat) : List Nat :=
  let k0 := if 64 < key.length then sha256 key else key
  let k := k0 ++ List.replicate (64 - k0.length) 0
  sha256 ((k.map (fun b => b ^^^ 0x5c)) ++
    sha256 ((k.map (fun b => b ^^^ 0x36)) ++ msg))

def base64Digits : List Char :=
  "ABCDEFGHIJKLMNOPQRSTUVWXYZabcdefghijklmnopqrstuvwxyz0123456789+/".data

def b64digit (n : Nat) : Char := base64Digits.getD n 'A'

/-- RFC 4648 base64 with = padding, three input bytes per group. -/
def b64Groups : List Nat → List Char
  | b0 :: b1 :: b2 :: rest =>
    b64digit (b0 >>> 2) :: b64digit (((b0 % 4) <<< 4) ||| (b1 >>> 4)) ::
      b64digit (((b1 % 16) <<< 2) ||| (b2 >>> 6)) :: b64digit (b2 % 64) ::
      b64Groups rest
  | [b0, b1] =>
    [b64digit (b0 >>> 2), b64digit (((b0 % 4) <<< 4) ||| (b1 >>> 4)),
     b64digit ((b1 % 16) <<< 2), '=']
  | [b0] =>
    [b64digit (b0 >>> 2), b64digit ((b0 % 4) <<< 4), '=', '=']
  | [] => []

def base64Encode (l : List Nat) : String := String.mk (b64Groups l)

/-- Bytes of a Go string (UTF-8; equal to the char codes for the ASCII
strings this code signs). -/
def strBytes (s : String) : List Nat := s.data.map Char.toNat

/-- Authenticator (credentials triple). -/
structure Authenticator where
  apiKey : String
  secretKey : String
  passphrase : String
  deriving DecidableEq, Repr

/-- Authenticator.sign (types.go listing 447-451):
base64(HMAC-SHA256(secretKey, message)). -/
def Authenticator.sign (a : Authenticator) (message : String) : String :=
  base64Encode (hmacSHA256 (strBytes a.secretKey) (strBytes message))

/-- Authenticator.SignRequest (listing 405-408):
message = Sprintf of timestamp, method, path, body concatenated. -/
def Authenticator.SignRequest (a : Authenticator) (timestamp : Int)
    (method path body : String) : String :=
  a.sign (toString timestamp ++ method ++ path ++ body)

/-- Authenticator.SignWebSocket (listing 424-427): same canonical string,
the caller passes a seconds timestamp. -/
def Authenticator.SignWebSocket (a : Authenticator) (timestamp : Int)
    (method path body : String) : String :=
  a.sign (toString timestamp ++ method ++ path ++ body)

/-- Authenticator.GetRESTHeaders (listing 462-477).  The Go code
substitutes time.Now().UnixMilli() when the timestamp argument is 0;
nowMillis supplies that clock reading. -/
def Authenticator.GetRESTHeaders (a : Authenticator) (timestamp nowMillis : Int)
    (method path body : String) : List (String × String) :=
  let ts := if timestamp = 0 then nowMillis else timestamp
  [("ACCESS-KEY", a.apiKey),
   ("ACCESS-SIGN", a.SignRequest ts method path body),
   ("ACCESS-PASSPHRASE", a.passphrase),
   ("ACCESS-TIMESTAMP", toString ts),
   ("Content-Type", "application/json"),
   ("User-Agent", "weex-contract-go-sdk/1.0.0")]

/-! ### WebSocket client (weex/websocket/client.go, weex/websocket/types.go)

The stream session state machine.  The gorilla connection is reduced to
a Bool (open or not); the done channel to a doneClosed flag (closing a
closed Go channel panics, so Close reports whether it performed a
double close); the bounded writeChan to a list of outbound frames; the
three pump goroutines to the events that Connect spawns them.  The
registry map channel -> *Subscription is an association list normalised
to insertion at the end, handlers named by Nat tokens.  Outcomes of
external effects (dial, write-timeout) are explicit parameters. -/

inductive ConnectionState where
  | StateDisconnected
  | StateConnecting
  | StateConnected
  | StateReconnecting
  deriving DecidableEq, Repr

inductive Frame where
  | subscribe (args : List String)
  | unsubscribe (args : List String)
  | login (args : List String)
  | ping
  deriving DecidableEq, Repr

/-- SubscriptionManager.Add (types.go listing 287-296): map assignment,
replacing any handler already present for the channel. -/
def SMAdd (subs : List (String × Nat)) (channel : String) (handler : Nat) :
    List (String × Nat) :=
  subs.filter (fun p => !(p.1 == channel)) ++ [(channel, handler)]

/-- SubscriptionManager.Remove (types.go listing 298-303): map delete. -/
def SMRemove (subs : List (String × Nat)) (channel : String) :
    List (String × Nat) :=
  subs.filter (fun p => !(p.1 == channel))

/-- AuthRequest of Client.authenticate (client.go:244-260): op login,
args [apiKey, passphrase, decimal seconds timestamp, signature over
timestamp + GET + /users/self/verify + empty body]. -/
structure AuthRequest where
  op : String
  args : List String
  deriving DecidableEq, Repr

def loginFrame (a : Authenticator) (nowSeconds : Int) : AuthRequest :=
  { op := "login"
    args := [a.apiKey, a.passphrase, toString nowSeconds,
      a.SignWebSocket nowSeconds "GET" "/users/self/verify" ""] }

structure WSClient where
  state : ConnectionState
  isPrivate : Bool
  hasAuth : Bool
  auth : Authenticator
  conn : Bool
  doneClosed : Bool
  reconnectCount : Nat
  subscriptions : List (String × Nat)
  writeQueue : List Frame
  deriving DecidableEq, Repr

/-- Client.write (client.go:263-272): enqueue on writeChan unless the
done channel is closed or the send times out after writeWait. -/
def WSClient.write (c : WSClient) (f : Frame) (timedOut : Bool) :
    WSClient × Option GoErr :=
  if c.doneClosed then
    (c, some (.plain "connection closed"))
  else if timedOut then
    (c, some (.plain "write timeout"))
  else
    ({ c with writeQueue := c.writeQueue ++ [f] }, none)

/-- Client.Close (client.go:156-177): no-op returning nil when already
Disconnected; otherwise close(done), close the connection, set
Disconnected.  The Bool records whether close(done) was executed on an
already-closed channel, which in Go is a runtime panic. -/
def WSClient.Close (c : WSClient) : WSClient × Option GoErr × Bool :=
  if c.state = .StateDisconnected then
    (c, none, false)
  else
    ({ c with doneClosed := true, conn := false, state := .StateDisconnected },
      none, c.doneClosed)

/-- Observable steps of Client.Connect, in program order. -/
inductive ConnectEvent where
  | setConnecting
  | dialAttempt
  | setDisconnected
  | setConnected
  | loginEnqueue
  | closeCalled
  | pumpsStarted
  deriving DecidableEq, Repr

/-- Client.Connect (client.go:102-153): reject when Connected or
Connecting; set Connecting; dial; on dial failure set Disconnected and
return the error; otherwise store the connection, set Connected, reset
the reconnect counter; for a private client with credentials enqueue the
login frame (json.Marshal of AuthRequest cannot fail) and on enqueue
failure call Close and return the error; finally start the pumps.
Returns the new state, the returned error, and the event trace. -/
def WSClient.Connect (c : WSClient) (dialOk : Bool) (nowSeconds : Int)
    (loginWriteTimedOut : Bool) :
    WSClient × Option GoErr × List ConnectEvent :=
  if c.state = .StateConnected ∨ c.state = .StateConnecting then
    (c, some (.plain "already connected or connecting"), [])
  else
    let c1 := { c with state := .StateConnecting }
    if ¬ dialOk then
      ({ c1 with state := .StateDisconnected },
        some (.plain "failed to connect to WebSocket"),
        [.setConnecting, .dialAttempt, .setDisconnected])
    else
      let c2 := { c1 with
        conn := true
        state := .StateConnected
        reconnectCount := 0 }
      if c2.isPrivate ∧ c2.hasAuth then
        match c2.write (.login (loginFrame c2.auth nowSeconds).args)
            loginWriteTimedOut with
        | (c3, some e) =>
          ((c3.Close).1, some (.wrap "authentication failed" e),
            [.setConnecting, .dialAttempt, .setConnected, .loginEnqueue,
              .closeCalled])
        | (c3, none) =>
          (c3, none,
            [.setConnecting, .dialAttempt, .setConnected, .loginEnqueue,
              .pumpsStarted])
      else
        (c2, none, [.setConnecting, .dialAttempt, .setConnected,
          .pumpsStarted])

/-- Client.Subscribe (client.go:180-210): require Connected; add to the
registry; marshal; enqueue; on marshal or enqueue failure remove the
registry entry again and return the error. -/
def WSClient.Subscribe (c : WSClient) (channel : String) (handler : Nat)
    (marshalOk writeTimedOut : Bool) : WSClient × Option GoErr :=
  if ¬ (c.state = .StateConnected) then
    (c, some (.plain "not connected"))
  else
    let c1 := { c with subscriptions := SMAdd c.subscriptions channel handler }
    if ¬ marshalOk then
      ({ c1 with subscriptions := SMRemove c1.subscriptions channel },
        some (.plain "failed to marshal subscribe request"))
    else
      match c1.write (.subscribe [channel]) writeTimedOut with
      | (c2, some e) =>
        ({ c2 with subscriptions := SMRemove c2.subscriptions channel },
          some (.wrap "failed to send subscribe request" e))
      | (c2, none) => (c2, none)

/-- Client.Unsubscribe (client.go:213-241): require Connected; remove
from the registry; marshal; enqueue; failures return the error with NO
further registry action. -/
def WSClient.Unsubscribe (c : WSClient) (channel : String)
    (marshalOk writeTimedOut : Bool) : WSClient × Option GoErr :=
  if ¬ (c.state = .StateConnected) then
    (c, some (.plain "not connected"))
  else
    let c1 := { c with subscriptions := SMRemove c.subscriptions channel }
    if ¬ marshalOk then
      (c1, some (.plain "failed to marshal unsubscribe request"))
    else
      match c1.write (.unsubscribe [channel]) writeTimedOut with
      | (c2, some e) =>
        (c2, some (.wrap "failed to send unsubscribe request" e))
      | (c2, none) => (c2, none)

/-- Uppercasing of a string, character by character (the method_uppercase
operation in the canonical string of the spec). -/
def strUpper (s : String) : String := String.mk (s.data.map Char.toUpper)

/-- C6: the signature is base64(HMAC-SHA256(secret, timestamp as ascii
decimal, then the uppercased method, then the path, then the body)) —
the Go code concatenates the method as given, and every method the
request descriptor admits (GET, POST, PUT, DELETE) is already uppercase
— the stream signer uses the identical canonical construction with the
seconds timestamp its caller passes, and the login frame carries args
[key, passphrase, timestamp, signature over timestamp + GET +
/users/self/verify + empty body].  Determinism across calls is intrinsic:
SignRequest is a pure function of (secret, ts, method, path, body). -/
theorem C6_signature_canonical_and_login_frame (a : Authenticator)
    (ts : Int) (method path body : String)
    (hm : method = "GET" ∨ method = "POST" ∨ method = "PUT" ∨
      method = "DELETE") :
    a.SignRequest ts method path body
        = base64Encode (hmacSHA256 (strBytes a.secretKey)
            (strBytes (toString ts ++ strUpper method ++ path ++ body))) ∧
    a.SignWebSocket ts method path body = a.SignRequest ts method path body ∧
    loginFrame a ts
        = { op := "login"
            args := [a.apiKey, a.passphrase, toString ts,
              base64Encode (hmacSHA256 (strBytes a.secretKey)
                (strBytes (toString ts ++ "GET" ++ "/users/self/verify"
                  ++ "")))] } := by
  have hup : strUpper method = method := by
    rcases hm with h | h | h | h <;> subst h <;> rfl
  refine ⟨?_, rfl, rfl⟩
  rw [hup]
  rfl

/-- Witness for C6 at the GET method. -/
theorem C6_witness :
    (("GET" : String) = "GET" ∨ ("GET" : String) = "POST" ∨
      ("GET" : String) = "PUT" ∨ ("GET" : String) = "DELETE") ∧
      Authenticator.SignRequest ⟨"key", "s", "pp"⟩ 1700000000000 "GET"
          "/capi/v2/market/ticker" ""
        = base64Encode (hmacSHA256 (strBytes "s")
            (strBytes (toString (1700000000000 : Int) ++ strUpper "GET" ++
              "/capi/v2/market/ticker" ++ ""))) :=
  ⟨Or.inl rfl,
    (C6_signature_canonical_and_login_frame ⟨"key", "s", "pp"⟩
      1700000000000 "GET" "/capi/v2/market/ticker" "" (Or.inl rfl)).1⟩

/-- Fresh private stream client with credentials, as built by
NewPrivateClient + newClient (client.go:68-99). -/
def freshPrivateClient : WSClient :=
  { state := .StateDisconnected, isPrivate := true, hasAuth := true,
    auth := ⟨"key", "secret", "pass"⟩, conn := false, doneClosed := false,
    reconnectCount := 0, subscriptions := [], writeQueue := [] }

/-- C8 counterexample: on a fresh private client whose dial succeeds,
Connect sets the state to Connected (third event) BEFORE the login frame
is even enqueued (fourth event), and returns with the state already
Connected; no step of Connect waits for a login acknowledgement.  The
claim says the state never becomes Connected before the ack arrives. -/
theorem C8_counterexample_connected_before_ack :
    (freshPrivateClient.Connect true 1700000000 false).2.2
        = [.setConnecting, .dialAttempt, .setConnected, .loginEnqueue,
            .pumpsStarted] ∧
      (freshPrivateClient.Connect true 1700000000 false).1.state
        = ConnectionState.StateConnected :=
  ⟨rfl, rfl⟩

/-- C8 as amended: for a private client, Connect promotes the state to
Connected immediately after the transport dial succeeds and before the
login frame is enqueued, without awaiting the login acknowledgement;
when the login frame fails to enqueue, Close is invoked and Connect
returns an error with the state back at Disconnected. -/
theorem C8_amended_connected_set_before_login (c : WSClient)
    (nowSeconds : Int) (hd : c.state = .StateDisconnected)
    (hpriv : c.isPrivate = true) (hauth : c.hasAuth = true)
    (hdone : c.doneClosed = false) :
    ((c.Connect true nowSeconds false).2.2
        = [.setConnecting, .dialAttempt, .setConnected, .loginEnqueue,
            .pumpsStarted] ∧
      (c.Connect true nowSeconds false).1.state
        = ConnectionState.StateConnected) ∧
    ((c.Connect true nowSeconds true).1.state
        = ConnectionState.StateDisconnected ∧
      (c.Connect true nowSeconds true).2.1.isSome = true) := by
  simp [WSClient.Connect, WSClient.write, WSClient.Close, hd, hpriv,
    hauth, hdone]

/-- Witness for the amended C8 on the fresh private client. -/
theorem C8_amended_witness :
    freshPrivateClient.state = ConnectionState.StateDisconnected ∧
      freshPrivateClient.isPrivate = true ∧
      freshPrivateClient.hasAuth = true ∧
      freshPrivateClient.doneClosed = false ∧
      (freshPrivateClient.Connect true 1700000001 true).1.state
        = ConnectionState.StateDisconnected :=
  ⟨rfl, rfl, rfl, rfl,
    (C8_amended_connected_set_before_login freshPrivateClient 1700000001
      rfl rfl rfl rfl).2.1⟩

theorem SMRemove_SMAdd (s : List (String × Nat)) (ch : String) (h : Nat) :
    SMRemove (SMAdd s ch h) ch = SMRemove s ch := by
  unfold SMRemove SMAdd
  rw [List.filter_append]
  simp [List.filter_filter]

theorem SMRemove_fresh (s : List (String × Nat)) (ch : String)
    (h : ∀ p ∈ s, p.1 ≠ ch) : SMRemove s ch = s := by
  unfold SMRemove
  apply List.filter_eq_self.mpr
  intro a ha
  simp [h a ha]

/-- Connected client subscribed to the orders channel (handler token 7). -/
def subbedClient : WSClient :=
  { state := .StateConnected, isPrivate := false, hasAuth := false,
    auth := ⟨"", "", ""⟩, conn := true, doneClosed := false,
    reconnectCount := 0, subscriptions := [("orders", 7)], writeQueue := [] }

/-- C9 counterexample: Unsubscribe whose outbound frame times out
returns an error, yet the registry entry stays removed — the registry is
NOT left exactly as it was before the call, so the rollback half of the
claim fails for Unsubscribe. -/
theorem C9_counterexample_unsubscribe_no_rollback :
    (subbedClient.Unsubscribe "orders" true true).2.isSome = true ∧
      (subbedClient.Unsubscribe "orders" true true).1.subscriptions = [] :=
  ⟨rfl, rfl⟩

/-- C9 as amended: the registry mutation does precede the outbound frame
in both calls, but only Subscribe rolls back — and its rollback is a
plain Remove, which restores the previous registry exactly only when
the channel was not registered before the call (a replaced handler is
dropped, not restored).  Unsubscribe performs no rollback at all: the
entry stays removed whether or not the frame was enqueued. -/
theorem C9_amended_rollback_asymmetry (c : WSClient) (channel : String)
    (handler : Nat) (marshalOk writeTimedOut : Bool)
    (hc : c.state = .StateConnected) :
    ((c.Subscribe channel handler marshalOk writeTimedOut).2.isSome = true →
      (c.Subscribe channel handler marshalOk writeTimedOut).1.subscriptions
        = SMRemove c.subscriptions channel) ∧
    ((∀ p ∈ c.subscriptions, p.1 ≠ channel) →
      (c.Subscribe channel handler marshalOk writeTimedOut).2.isSome = true →
      (c.Subscribe channel handler marshalOk writeTimedOut).1.subscriptions
        = c.subscriptions) ∧
    (c.Unsubscribe channel marshalOk writeTimedOut).1.subscriptions
      = SMRemove c.subscriptions channel := by
  have hpart1 : (c.Subscribe channel handler marshalOk writeTimedOut).2.isSome
        = true →
      (c.Subscribe channel handler marshalOk writeTimedOut).1.subscriptions
        = SMRemove c.subscriptions channel := by
    intro hfail
    by_cases hm : marshalOk
    · by_cases hdc : c.doneClosed
      · simp [WSClient.Subscribe, WSClient.write, hc, hm, hdc,
          SMRemove_SMAdd]
      · by_cases hw : writeTimedOut
        · simp [WSClient.Subscribe, WSClient.write, hc, hm, hdc, hw,
            SMRemove_SMAdd]
        · exfalso
          simp [WSClient.Subscribe, WSClient.write, hc, hm, hdc, hw]
            at hfail
    · simp [WSClient.Subscribe, hc, hm, SMRemove_SMAdd]
  have hpart3 : (c.Unsubscribe channel marshalOk writeTimedOut).1.subscriptions
      = SMRemove c.subscriptions channel := by
    by_cases hm : marshalOk
    · by_cases hdc : c.doneClosed
      · simp [WSClient.Unsubscribe, WSClient.write, hc, hm, hdc]
      · by_cases hw : writeTimedOut
        · simp [WSClient.Unsubscribe, WSClient.write, hc, hm, hdc, hw]
        · simp [WSClient.Unsubscribe, WSClient.write, hc, hm, hdc, hw]
    · simp [WSClient.Unsubscribe, hc, hm]
  exact ⟨hpart1,
    fun hfresh hfail => (hpart1 hfail).trans (SMRemove_fresh _ _ hfresh),
    hpart3⟩

/-- Witness for the amended C9 on the subscribed client. -/
theorem C9_amended_witness :
    subbedClient.state = ConnectionState.StateConnected ∧
      (subbedClient.Unsubscribe "orders" true true).1.subscriptions
        = SMRemove subbedClient.subscriptions "orders" :=
  ⟨rfl, (C9_amended_rollback_asymmetry subbedClient "orders" 7 true true
    rfl).2.2⟩

theorem WSClient.close_state (c : WSClient) :
    (c.Close).1.state = ConnectionState.StateDisconnected := by
  unfold WSClient.Close
  split_ifs with h
  · exact h
  · rfl

theorem WSClient.close_noop (c : WSClient)
    (h : c.state = ConnectionState.StateDisconnected) :
    c.Close = (c, none, false) := by
  unfold WSClient.Close
  rw [if_pos h]

/-- C10: Close on an already-Disconnected client returns nil and changes
no field, so a second consecutive Close is a no-op that never executes
close(done) on the already-closed channel (third component false = no
double close, hence no panic). -/
theorem C10_close_idempotent (c : WSClient)
    (h : c.state = ConnectionState.StateDisconnected) :
    c.Close = (c, none, false) ∧
    ∀ c0 : WSClient, (c0.Close).1.Close = ((c0.Close).1, none, false) :=
  ⟨WSClient.close_noop c h,
    fun c0 => WSClient.close_noop _ (WSClient.close_state c0)⟩

/-- Witness for C10 on the fresh (Disconnected) client. -/
theorem C10_witness :
    freshPrivateClient.state = ConnectionState.StateDisconnected ∧
      WSClient.Close freshPrivateClient = (freshPrivateClient, none, false) :=
  ⟨rfl, (C10_close_idempotent freshPrivateClient rfl).1⟩
